import Mathlib

/-!
Shallow embedding of the monarch-particle-dreamscape particle system
(`AdvancedParticleSystem` component and its host page) and proofs about it.

Conventions used throughout:
* JavaScript numbers are modelled as real numbers (`ℝ`); `Math.sin`, `Math.cos`,
  `Math.sqrt`, `Math.PI` and `Math.pow` become `Real.sin`, `Real.cos`,
  `Real.sqrt`, `Real.pi` and real exponentiation.
* `Math.floor` applied to a non-negative product such as
  `Math.floor(particleCount * 0.15)` is modelled by natural-number division
  (`count * 15 / 100`), which agrees with the rational floor for `count : ℕ`.
* A JS `for (let i = 0; i < bound; i++)` loop whose `bound` is the real number
  `m / 2` executes `⌈m / 2⌉` iterations for a natural `m`; that iteration count
  is written `(m + 1) / 2` in natural-number arithmetic.
* `Math.random()` draws and DOM handles (`SVGCircleElement`, refs) are not part
  of the verified state: randomness is abstracted into explicit oracle
  parameters, and the rendered position that the code writes onto the DOM node
  is returned as an explicit value instead.
-/

namespace Monarch

/-- The four particle kinds of the source's union type
`'body' | 'upperWing' | 'lowerWing' | 'antenna'`. -/
inductive PType where
  | body
  | upperWing
  | lowerWing
  | antenna
deriving DecidableEq, Repr

/-- The source's `ButterflyPoint` record: a target coordinate plus type tag and
color string. -/
structure ButterflyPoint where
  x : ℝ
  y : ℝ
  type : PType
  color : String

/-! ### Counting layer

The integer bookkeeping of `generateButterflyShape` / `generateWings`,
extracted so that the partition sizes can be computed and decided. -/

/-- `const bodyParticles = Math.floor(particleCount * 0.15)`. -/
def bodyParticles (count : ℕ) : ℕ := count * 15 / 100

/-- `const antennaParticles = Math.floor(particleCount * 0.05)`. -/
def antennaParticles (count : ℕ) : ℕ := count * 5 / 100

/-- Iterations of the per-side antenna loop `for (i = 0; i < antennaParticles / 2; i++)`
where `antennaParticles / 2` is real division: `⌈antennaParticles / 2⌉`. -/
def antennaPerSide (count : ℕ) : ℕ := (antennaParticles count + 1) / 2

/-- Antenna points emitted over both sides (`side = -1` and `side = 1`). -/
def antennaTotal (count : ℕ) : ℕ := 2 * antennaPerSide count

/-- `const wingParticles = particleCount - points.length` evaluated after the
body and antenna loops, where `points.length = bodyParticles + antennaTotal`.
(The subtraction never underflows; see `body_antenna_le`.) -/
def wingParticles (count : ℕ) : ℕ := count - (bodyParticles count + antennaTotal count)

/-- `const upperWingParticles = Math.floor(wingParticles * 0.6)`. -/
def upperWingParticles (count : ℕ) : ℕ := wingParticles count * 60 / 100

/-- `const lowerWingParticles = wingParticles - upperWingParticles`. -/
def lowerWingParticles (count : ℕ) : ℕ := wingParticles count - upperWingParticles count

/-- Iterations of the per-side upper-wing loop `for (i = 0; i < upperWingParticles / 2; i++)`
(real division in the bound). -/
def upperPerSide (count : ℕ) : ℕ := (upperWingParticles count + 1) / 2

/-- Iterations of the per-side lower-wing loop `for (i = 0; i < lowerWingParticles / 2; i++)`. -/
def lowerPerSide (count : ℕ) : ℕ := (lowerWingParticles count + 1) / 2

/-- Wing points actually emitted (both sides of both wing pairs). -/
def wingEmitted (count : ℕ) : ℕ := 2 * upperPerSide count + 2 * lowerPerSide count

/-- Total number of points `generateButterflyShape` pushes onto `points`. -/
def totalPoints (count : ℕ) : ℕ :=
  bodyParticles count + antennaTotal count + wingEmitted count

theorem body_antenna_le (count : ℕ) :
    bodyParticles count + antennaTotal count ≤ count := by
  unfold bodyParticles antennaTotal antennaPerSide antennaParticles
  omega

theorem totalPoints_bounds (count : ℕ) :
    count ≤ totalPoints count ∧ totalPoints count ≤ count + 2 := by
  unfold totalPoints wingEmitted upperPerSide lowerPerSide lowerWingParticles
    upperWingParticles wingParticles antennaTotal antennaPerSide antennaParticles bodyParticles
  omega

/-! ### Point layer

The emitted points of `generateButterflyShape` / `generateWings`, with the
viewport passed in as `innerWidth` / `innerHeight`. -/

/-- Wing color with polka dot pattern (`getWingColor`).  JS `% 3 === 0` on the
possibly-negative grid sum is divisibility by 3, matching `Int` emod. -/
noncomputable def getWingColor (x y centerX centerY : ℝ) : String :=
  let dotSize : ℝ := 30
  let gridX : ℤ := ⌊(x - centerX + 200) / dotSize⌋
  let gridY : ℤ := ⌊(y - centerY + 200) / dotSize⌋
  let dotCenterX := centerX - 200 + gridX * dotSize + dotSize / 2
  let dotCenterY := centerY - 200 + gridY * dotSize + dotSize / 2
  let distToDot := Real.sqrt ((x - dotCenterX) ^ 2 + (y - dotCenterY) ^ 2)
  if distToDot < 8 then
    if (gridX + gridY) % 3 = 0 then "#DC143C" else "#1A1A1A"
  else "#FFD700"

/-- One body point: iteration `i` of the body loop, inner index `j ∈ {0, 1}`. -/
noncomputable def bodyPoint (centerX centerY scale : ℝ) (bodyN : ℕ) (i j : ℕ) :
    ButterflyPoint :=
  let progress : ℝ := (i : ℝ) / ((bodyN : ℝ) - 1)
  let y := centerY + (progress - 0.5) * 120 * scale
  let thickness := Real.sin (progress * Real.pi) * 3
  { x := centerX + ((j : ℝ) - 0.5) * thickness
    y := y
    type := PType.body
    color := "#8B4513" }

/-- The body loop: each iteration pushes the `j = 0` and `j = 1` points, but
only while `points.length < bodyParticles` — i.e. the first `bodyParticles`
of the doubled sequence. -/
noncomputable def bodyPts (count : ℕ) (centerX centerY scale : ℝ) : List ButterflyPoint :=
  (((List.range (bodyParticles count)).map fun i =>
      [bodyPoint centerX centerY scale (bodyParticles count) i 0,
       bodyPoint centerX centerY scale (bodyParticles count) i 1]).flatten).take
    (bodyParticles count)

/-- One antenna point for a given `side ∈ {-1, 1}` and loop index `i`. -/
noncomputable def antennaPoint (centerX centerY scale : ℝ) (antennaN : ℕ) (side : ℝ)
    (i : ℕ) : ButterflyPoint :=
  let progress : ℝ := (i : ℝ) / ((antennaN : ℝ) / 2 - 1)
  let curve := Real.sin (progress * Real.pi * 0.5)
  { x := centerX + side * (12 + progress * 25) * scale
    y := centerY - 70 * scale - progress * 20 * scale + curve * 10 * scale
    type := PType.antenna
    color := "#1A1A1A" }

/-- One side of the antenna loop (`i < antennaParticles / 2`, real bound). -/
noncomputable def antennaSide (count : ℕ) (centerX centerY scale side : ℝ) :
    List ButterflyPoint :=
  (List.range (antennaPerSide count)).map
    (antennaPoint centerX centerY scale (antennaParticles count) side)

/-- Both antenna sides, in source order `side = -1` then `side = 1`. -/
noncomputable def antennaPts (count : ℕ) (centerX centerY scale : ℝ) : List ButterflyPoint :=
  antennaSide count centerX centerY scale (-1) ++ antennaSide count centerX centerY scale 1

/-- One upper-wing point. -/
noncomputable def upperWingPoint (centerX centerY scale : ℝ) (upperN : ℕ) (side : ℝ)
    (i : ℕ) : ButterflyPoint :=
  let angle := ((i : ℝ) / ((upperN : ℝ) / 2)) * Real.pi
  let radius := 40 + 25 * Real.sin (angle * 2)
  let x := centerX + side * radius * Real.cos angle * scale
  let y := centerY - 30 * scale + radius * Real.sin angle * 0.8 * scale
  { x := x, y := y, type := PType.upperWing, color := getWingColor x y centerX centerY }

/-- One side of the upper-wing loop. -/
noncomputable def upperWingSide (count : ℕ) (centerX centerY scale side : ℝ) :
    List ButterflyPoint :=
  (List.range (upperPerSide count)).map
    (upperWingPoint centerX centerY scale (upperWingParticles count) side)

/-- Both upper-wing sides, `side = -1` then `side = 1`. -/
noncomputable def upperWingPts (count : ℕ) (centerX centerY scale : ℝ) :
    List ButterflyPoint :=
  upperWingSide count centerX centerY scale (-1) ++ upperWingSide count centerX centerY scale 1

/-- One lower-wing point. -/
noncomputable def lowerWingPoint (centerX centerY scale : ℝ) (lowerN : ℕ) (side : ℝ)
    (i : ℕ) : ButterflyPoint :=
  let angle := ((i : ℝ) / ((lowerN : ℝ) / 2)) * Real.pi * 0.7
  let radius := 25 + 15 * Real.sin (angle * 3)
  let x := centerX + side * radius * Real.cos angle * scale
  let y := centerY + 20 * scale + radius * Real.sin angle * 0.9 * scale
  { x := x, y := y, type := PType.lowerWing, color := getWingColor x y centerX centerY }

/-- One side of the lower-wing loop. -/
noncomputable def lowerWingSide (count : ℕ) (centerX centerY scale side : ℝ) :
    List ButterflyPoint :=
  (List.range (lowerPerSide count)).map
    (lowerWingPoint centerX centerY scale (lowerWingParticles count) side)

/-- Both lower-wing sides, `side = -1` then `side = 1`. -/
noncomputable def lowerWingPts (count : ℕ) (centerX centerY scale : ℝ) :
    List ButterflyPoint :=
  lowerWingSide count centerX centerY scale (-1) ++ lowerWingSide count centerX centerY scale 1

/-- `generateButterflyShape`: body, then antennae, then the wings appended by
`generateWings`, with `centerX`, `centerY` and `scale` computed from the
viewport exactly as in the source. -/
noncomputable def generateButterflyShape (count : ℕ) (innerWidth innerHeight : ℝ) :
    List ButterflyPoint :=
  let centerX := innerWidth / 2
  let centerY := innerHeight / 2 - 50
  let scale := min innerWidth innerHeight / 800
  bodyPts count centerX centerY scale ++ antennaPts count centerX centerY scale ++
    upperWingPts count centerX centerY scale ++ lowerWingPts count centerX centerY scale

theorem length_bodyPts (count : ℕ) (centerX centerY scale : ℝ) :
    (bodyPts count centerX centerY scale).length = bodyParticles count := by
  have hlen : ∀ (n : ℕ) (f : ℕ → List ButterflyPoint),
      (∀ i, (f i).length = 2) → (((List.range n).map f).flatten).length = 2 * n := by
    intro n f hf
    induction n with
    | zero => simp
    | succ n ih =>
      rw [List.range_succ, List.map_append, List.flatten_append]
      simp [ih, hf]
      omega
  have h2 := hlen (bodyParticles count)
    (fun i => [bodyPoint centerX centerY scale (bodyParticles count) i 0,
               bodyPoint centerX centerY scale (bodyParticles count) i 1])
    (fun i => by simp)
  unfold bodyPts
  rw [List.length_take, h2]
  omega

theorem length_antennaPts (count : ℕ) (centerX centerY scale : ℝ) :
    (antennaPts count centerX centerY scale).length = antennaTotal count := by
  simp [antennaPts, antennaSide, antennaTotal]
  omega

theorem length_upperWingPts (count : ℕ) (centerX centerY scale : ℝ) :
    (upperWingPts count centerX centerY scale).length = 2 * upperPerSide count := by
  simp [upperWingPts, upperWingSide]
  omega

theorem length_lowerWingPts (count : ℕ) (centerX centerY scale : ℝ) :
    (lowerWingPts count centerX centerY scale).length = 2 * lowerPerSide count := by
  simp [lowerWingPts, lowerWingSide]
  omega

theorem length_generateButterflyShape (count : ℕ) (innerWidth innerHeight : ℝ) :
    (generateButterflyShape count innerWidth innerHeight).length = totalPoints count := by
  simp [generateButterflyShape, length_bodyPts, length_antennaPts, length_upperWingPts,
    length_lowerWingPts, totalPoints, wingEmitted]
  omega

/-! ### Types and colors of the emitted points -/

/-- The four color literals that appear in the generator. -/
def palette : List String := ["#8B4513", "#1A1A1A", "#DC143C", "#FFD700"]

/-- A point is valid when its type tag is one of the four particle kinds and
its color is one of the generator's four color strings. -/
def validPoint (pt : ButterflyPoint) : Prop :=
  (pt.type = PType.body ∨ pt.type = PType.upperWing ∨ pt.type = PType.lowerWing ∨
    pt.type = PType.antenna) ∧ pt.color ∈ palette

theorem getWingColor_mem (x y centerX centerY : ℝ) :
    getWingColor x y centerX centerY ∈ palette := by
  simp only [getWingColor, palette]
  split_ifs <;> simp

theorem mem_bodyPts {count : ℕ} {centerX centerY scale : ℝ} {pt : ButterflyPoint}
    (h : pt ∈ bodyPts count centerX centerY scale) :
    pt.type = PType.body ∧ pt.color = "#8B4513" := by
  unfold bodyPts at h
  have h' := List.take_subset _ _ h
  rw [List.mem_flatten] at h'
  obtain ⟨l, hl, hpt⟩ := h'
  rw [List.mem_map] at hl
  obtain ⟨i, _, rfl⟩ := hl
  simp only [List.mem_cons, List.not_mem_nil, or_false] at hpt
  rcases hpt with rfl | rfl <;> exact ⟨rfl, rfl⟩

theorem mem_antennaPts {count : ℕ} {centerX centerY scale : ℝ} {pt : ButterflyPoint}
    (h : pt ∈ antennaPts count centerX centerY scale) :
    pt.type = PType.antenna ∧ pt.color = "#1A1A1A" := by
  unfold antennaPts antennaSide at h
  rw [List.mem_append] at h
  rcases h with h | h <;>
  · rw [List.mem_map] at h
    obtain ⟨i, _, rfl⟩ := h
    exact ⟨rfl, rfl⟩

theorem mem_upperWingPts {count : ℕ} {centerX centerY scale : ℝ} {pt : ButterflyPoint}
    (h : pt ∈ upperWingPts count centerX centerY scale) :
    pt.type = PType.upperWing ∧ pt.color ∈ palette := by
  unfold upperWingPts upperWingSide at h
  rw [List.mem_append] at h
  rcases h with h | h <;>
  · rw [List.mem_map] at h
    obtain ⟨i, _, rfl⟩ := h
    exact ⟨rfl, getWingColor_mem _ _ _ _⟩

theorem mem_lowerWingPts {count : ℕ} {centerX centerY scale : ℝ} {pt : ButterflyPoint}
    (h : pt ∈ lowerWingPts count centerX centerY scale) :
    pt.type = PType.lowerWing ∧ pt.color ∈ palette := by
  unfold lowerWingPts lowerWingSide at h
  rw [List.mem_append] at h
  rcases h with h | h <;>
  · rw [List.mem_map] at h
    obtain ⟨i, _, rfl⟩ := h
    exact ⟨rfl, getWingColor_mem _ _ _ _⟩

theorem mem_generateButterflyShape {count : ℕ} {innerWidth innerHeight : ℝ}
    {pt : ButterflyPoint} (h : pt ∈ generateButterflyShape count innerWidth innerHeight) :
    validPoint pt := by
  unfold generateButterflyShape at h
  simp only [List.mem_append] at h
  rcases h with ((h | h) | h) | h
  · obtain ⟨h1, h2⟩ := mem_bodyPts h
    exact ⟨Or.inl h1, by rw [h2]; simp [palette]⟩
  · obtain ⟨h1, h2⟩ := mem_antennaPts h
    exact ⟨Or.inr (Or.inr (Or.inr h1)), by rw [h2]; simp [palette]⟩
  · obtain ⟨h1, h2⟩ := mem_upperWingPts h
    exact ⟨Or.inr (Or.inl h1), h2⟩
  · obtain ⟨h1, h2⟩ := mem_lowerWingPts h
    exact ⟨Or.inr (Or.inr (Or.inl h1)), h2⟩

/-- Number of points of a given type emitted by the generator. -/
noncomputable def typeCount (count : ℕ) (innerWidth innerHeight : ℝ) (ty : PType) : ℕ :=
  ((generateButterflyShape count innerWidth innerHeight).filter
    (fun pt => pt.type == ty)).length

theorem filter_type_of_all {l : List ButterflyPoint} {ty0 : PType}
    (h : ∀ x ∈ l, x.type = ty0) (ty : PType) :
    (l.filter (fun pt => pt.type == ty)).length = if ty0 = ty then l.length else 0 := by
  by_cases hty : ty0 = ty
  · rw [if_pos hty]
    have heq : l.filter (fun pt => pt.type == ty) = l :=
      List.filter_eq_self.mpr (fun a ha => by simp [h a ha, hty])
    rw [heq]
  · rw [if_neg hty]
    have heq : l.filter (fun pt => pt.type == ty) = [] :=
      List.filter_eq_nil_iff.mpr (fun a ha => by simp [h a ha, hty])
    rw [heq]
    rfl

theorem typeCount_eq (count : ℕ) (innerWidth innerHeight : ℝ) (ty : PType) :
    typeCount count innerWidth innerHeight ty =
      (if PType.body = ty then bodyParticles count else 0) +
      (if PType.antenna = ty then antennaTotal count else 0) +
      (if PType.upperWing = ty then 2 * upperPerSide count else 0) +
      (if PType.lowerWing = ty then 2 * lowerPerSide count else 0) := by
  unfold typeCount generateButterflyShape
  rw [List.filter_append, List.filter_append, List.filter_append]
  simp only [List.length_append]
  rw [filter_type_of_all (fun x hx => (mem_bodyPts hx).1) ty,
    filter_type_of_all (fun x hx => (mem_antennaPts hx).1) ty,
    filter_type_of_all (fun x hx => (mem_upperWingPts hx).1) ty,
    filter_type_of_all (fun x hx => (mem_lowerWingPts hx).1) ty,
    length_bodyPts, length_antennaPts, length_upperWingPts, length_lowerWingPts]

/-! ### Particle layer

The mutable `Particle` record, minus its `element : SVGCircleElement` DOM
handle; the position the code writes onto that handle is returned explicitly
as a `Dot`. -/

/-- The source's `Particle` record (DOM `element` omitted). -/
structure Particle where
  startX : ℝ
  startY : ℝ
  targetX : ℝ
  targetY : ℝ
  progress : ℝ
  speed : ℝ
  type : PType
  formed : Bool
  radius : ℝ
  originalColor : String
  floatPhase : ℝ
  floatSpeed : ℝ
  floatAmplitude : ℝ
  mouseOffsetX : ℝ
  mouseOffsetY : ℝ
  originalTargetX : ℝ
  originalTargetY : ℝ

/-- Visual attributes written by `gsap.set` on a particle's circle element. -/
structure Dot where
  cx : ℝ
  cy : ℝ
  scale : ℝ
  opacity : ℝ

/-- One bundle of `Math.random()` draws consumed when creating a particle. -/
structure Draws where
  radius01 : ℝ
  edgeSide : ℕ
  edge01 : ℝ
  speed01 : ℝ
  phase01 : ℝ
  floatSpeed01 : ℝ

/-- `getEdgePosition`: a random point just outside the viewport edge, with the
random side index and the random coordinate fraction passed in explicitly. -/
noncomputable def getEdgePosition (innerWidth innerHeight : ℝ) (side : ℕ) (r : ℝ) :
    ℝ × ℝ :=
  match side with
  | 0 => (r * innerWidth, -150)
  | 1 => (innerWidth + 150, r * innerHeight)
  | 2 => (r * innerWidth, innerHeight + 150)
  | 3 => (-150, r * innerHeight)
  | _ => (0, 0)

/-- The particle built from one `ButterflyPoint` inside
`createParticleSystem`'s `forEach` body, with the random draws abstracted. -/
noncomputable def mkParticle (innerWidth innerHeight : ℝ) (d : Draws)
    (point : ButterflyPoint) : Particle :=
  let radius := d.radius01 * 1.5 + 1.5
  let startPos := getEdgePosition innerWidth innerHeight d.edgeSide d.edge01
  { startX := startPos.1
    startY := startPos.2
    targetX := point.x
    targetY := point.y
    progress := 0
    speed := 0.015 + d.speed01 * 0.02
    type := point.type
    formed := false
    radius := radius
    originalColor := point.color
    floatPhase := d.phase01 * Real.pi * 2
    floatSpeed := 0.5 + d.floatSpeed01 * 0.5
    floatAmplitude := if point.type = PType.body then 2 else 4
    mouseOffsetX := 0
    mouseOffsetY := 0
    originalTargetX := point.x
    originalTargetY := point.y }

/-- `createParticleSystem`, given the generated points and a per-index
randomness oracle: one particle is created per butterfly point. -/
noncomputable def createParticleSystem (innerWidth innerHeight : ℝ)
    (pts : List ButterflyPoint) (rnd : ℕ → Draws) : List Particle :=
  pts.mapIdx fun index point => mkParticle innerWidth innerHeight (rnd index) point

theorem length_createParticleSystem (innerWidth innerHeight : ℝ)
    (pts : List ButterflyPoint) (rnd : ℕ → Draws) :
    (createParticleSystem innerWidth innerHeight pts rnd).length = pts.length := by
  simp [createParticleSystem]

/-- `easeOutExpo`: `t === 1 ? 1 : 1 - Math.pow(2, -10 * t)`. -/
noncomputable def easeOutExpo (t : ℝ) : ℝ :=
  if t = 1 then 1 else 1 - (2 : ℝ) ^ (-10 * t)

/-- `updateParticlePosition`: marks the particle `formed` when
`progress > 0.95 && !formed`, and returns the `Dot` written by `gsap.set`. -/
noncomputable def updateParticlePosition (particle : Particle) : Particle × Dot :=
  let easeProgress := easeOutExpo particle.progress
  let currentX := particle.startX + (particle.targetX - particle.startX) * easeProgress
  let currentY := particle.startY + (particle.targetY - particle.startY) * easeProgress
  let pathCurve := Real.sin (particle.progress * Real.pi) * 20
  let curveX := currentX + pathCurve * Real.cos (particle.progress * Real.pi * 2)
  let curveY := currentY + pathCurve * 0.5 * Real.sin (particle.progress * Real.pi * 3)
  let particle' :=
    if particle.progress > 0.95 ∧ particle.formed = false then
      { particle with formed := true }
    else particle
  (particle',
   { cx := curveX
     cy := curveY
     scale := 0.7 + particle.progress * 0.5
     opacity := 0.4 + particle.progress * 0.5 })

/-- The per-particle body of `updateFloating` at wall-clock `time`: unformed
particles are skipped entirely; formed ones are rendered at
`target + idleOffset + mouseOffset` (returned as `some` position) and their
mouse offsets are then decayed by `0.92`. -/
noncomputable def updateFloatingParticle (time : ℝ) (particle : Particle) :
    Particle × Option (ℝ × ℝ) :=
  if particle.formed = false then (particle, none)
  else
    let offsetX := Real.sin (time * particle.floatSpeed + particle.floatPhase) *
      particle.floatAmplitude
    let offsetY := Real.cos (time * particle.floatSpeed + particle.floatPhase) *
      particle.floatAmplitude * 0.6
    let totalX := particle.targetX + offsetX + particle.mouseOffsetX
    let totalY := particle.targetY + offsetY + particle.mouseOffsetY
    ({ particle with
        mouseOffsetX := particle.mouseOffsetX * 0.92
        mouseOffsetY := particle.mouseOffsetY * 0.92 },
     some (totalX, totalY))

/-- `updateFloating` over the whole particle array. -/
noncomputable def updateFloating (time : ℝ) (particles : List Particle) : List Particle :=
  particles.map fun particle => (updateFloatingParticle time particle).1

/-- A run of floating frames at the given wall-clock times, with no other
perturbing event in between. -/
noncomputable def floatRun (times : List ℝ) (particle : Particle) : Particle :=
  times.foldl (fun q time => (updateFloatingParticle time q).1) particle

/-- The per-particle body of `handleMouseMove` (formed particles within 120px
of the mouse get a repulsion offset biased toward the butterfly center). -/
noncomputable def mouseMoveParticle (mouseX mouseY butterflyCenterX butterflyCenterY : ℝ)
    (particle : Particle) : Particle :=
  if particle.formed = false then particle
  else
    let dx := mouseX - particle.targetX
    let dy := mouseY - particle.targetY
    let distance := Real.sqrt (dx * dx + dy * dy)
    if distance < 120 then
      let force := max 0 ((120 - distance) / 120)
      let toCenterX := butterflyCenterX - particle.targetX
      let toCenterY := butterflyCenterY - particle.targetY
      let centerDist := Real.sqrt (toCenterX * toCenterX + toCenterY * toCenterY)
      let centerDirX := toCenterX / (if centerDist = 0 then 1 else centerDist)
      let centerDirY := toCenterY / (if centerDist = 0 then 1 else centerDist)
      { particle with
          mouseOffsetX := -dx * force * 15 + centerDirX * force * 6
          mouseOffsetY := -dy * force * 15 + centerDirY * force * 6 }
    else particle

/-- The per-particle body of `createRippleEffect`'s loop (formed particles
within 100px of the click get a one-shot radial impulse). -/
noncomputable def rippleParticle (x y : ℝ) (particle : Particle) : Particle :=
  if particle.formed = true then
    let dx := x - particle.targetX
    let dy := y - particle.targetY
    let distance := Real.sqrt (dx * dx + dy * dy)
    if distance < 100 then
      let force := (100 - distance) / 100
      { particle with
          mouseOffsetX := -dx * force * 25
          mouseOffsetY := -dy * force * 25 }
    else particle
  else particle

/-- The per-particle body of `resetAnimation`'s scatter-timeline `onComplete`:
clears `formed` and `progress`, reassigns the start to a fresh edge position,
restores the target to the original shape coordinate and zeroes the offsets. -/
noncomputable def resetCompleteParticle (innerWidth innerHeight : ℝ) (d : Draws)
    (particle : Particle) : Particle :=
  let newStart := getEdgePosition innerWidth innerHeight d.edgeSide d.edge01
  { particle with
      formed := false
      progress := 0
      startX := newStart.1
      startY := newStart.2
      targetX := particle.originalTargetX
      targetY := particle.originalTargetY
      mouseOffsetX := 0
      mouseOffsetY := 0 }

/-! ### Component state

React state of `AdvancedParticleSystem` (`SystemState`) and of the host page
(`HostState`), with event handlers as state transitions.  Where a handler
also creates a GSAP timeline or an SVG node, that side effect is reported as
an extra `Bool` result (`true` when the timeline / ripple visual is created). -/

/-- The component state of `AdvancedParticleSystem`. -/
structure SystemState where
  particles : List Particle
  isFormed : Bool
  formationProgress : ℝ
  fps : ℕ
  isResetting : Bool

/-- The start of `animateFormation`: clears `isFormed` and the progress
readout and creates the staggered formation timeline (`true`). -/
noncomputable def animateFormationStart (s : SystemState) : SystemState × Bool :=
  ({ s with isFormed := false, formationProgress := 0 }, true)

/-- `resetAnimation` (the synchronous part): re-entrant calls while
`isResetting` are ignored; otherwise the reset flags are set and the scatter
timeline is created. -/
noncomputable def resetAnimation (s : SystemState) : SystemState :=
  if s.isResetting = true then s
  else { s with isResetting := true, isFormed := false, formationProgress := 0 }

/-- The scatter timeline's `onComplete`: every particle is reset in place and
a fresh formation pass is launched. -/
noncomputable def resetAnimationComplete (innerWidth innerHeight : ℝ) (rnd : ℕ → Draws)
    (s : SystemState) : SystemState :=
  let scattered := { s with
    particles := s.particles.mapIdx fun i particle =>
      resetCompleteParticle innerWidth innerHeight (rnd i) particle }
  { (animateFormationStart scattered).1 with isResetting := false }

/-- The `transformToButterly` method exposed on the imperative handle; its
body is only the comment `Already implemented in useEffect`. -/
def transformToButterly (s : SystemState) : SystemState := s

/-- `getStats` on the imperative handle.  Note the reported `particleCount`
is the number of currently formed particles. -/
noncomputable def getStats (s : SystemState) : ℕ × ℤ × ℕ :=
  ((s.particles.filter fun particle => particle.formed).length,
   ⌊s.formationProgress * 100 + 1 / 2⌋, s.fps)

/-- The mount-time initialization effect: `createParticleSystem` (a no-op
returning no particles when the SVG ref is missing) followed by
`animateFormation` on the created particles. -/
noncomputable def initEffect (svgPresent : Bool) (innerWidth innerHeight : ℝ)
    (count : ℕ) (rnd : ℕ → Draws) (s : SystemState) : SystemState × Bool :=
  if svgPresent = false then (s, false)
  else
    let pts := generateButterflyShape count innerWidth innerHeight
    animateFormationStart
      { s with particles := createParticleSystem innerWidth innerHeight pts rnd }

/-- `handleMouseMove`: only acts on the particle array when `isFormed`. -/
noncomputable def handleMouseMove (s : SystemState) (mouseX mouseY : ℝ)
    (innerWidth innerHeight : ℝ) : SystemState :=
  if s.isFormed = true then
    let butterflyCenterX := innerWidth / 2
    let butterflyCenterY := innerHeight / 2 - 50
    { s with particles :=
        s.particles.map (mouseMoveParticle mouseX mouseY butterflyCenterX butterflyCenterY) }
  else s

/-- `createRippleEffect`: guards on the SVG ref, spawns the expanding-ring
visual (`true`) and applies the radial impulse to nearby formed particles. -/
noncomputable def createRippleEffect (svgPresent : Bool) (x y : ℝ) (s : SystemState) :
    SystemState × Bool :=
  if svgPresent = false then (s, false)
  else ({ s with particles := s.particles.map (rippleParticle x y) }, true)

/-- `handleClick`: a no-op unless the SVG ref exists and formation completed. -/
noncomputable def handleClick (svgPresent : Bool) (s : SystemState) (clickX clickY : ℝ) :
    SystemState × Bool :=
  if svgPresent = false ∨ s.isFormed = false then (s, false)
  else createRippleEffect svgPresent clickX clickY s

/-- The host page state (`Index` in the source). -/
structure HostState where
  isTransformed : Bool
  particleCount : ℕ
  transformProgress : ℝ
  showStats : Bool
  isAnimating : Bool
  fps : ℕ

/-- The host's `handleTransform`: re-entrant calls while `isAnimating` are
ignored; otherwise it marks the animation in flight and restarts the progress
readout. -/
noncomputable def handleTransform (h : HostState) : HostState :=
  if h.isAnimating = true then h
  else { h with isAnimating := true, transformProgress := 0 }

/-! ### Claims -/

/-- C1 counterexample: at the app's configured particle count `N = 1500`
(viewport 1920×1080) the shape generator emits 1501 target points, not 1500:
the odd antenna share (75) and odd upper-wing share (719) each round up by one
in the per-side loops, while the wing budget only subtracts off the points
already emitted. -/
theorem C1_counterexample :
    (generateButterflyShape 1500 1920 1080).length = 1501 ∧
    (generateButterflyShape 1500 1920 1080).length ≠ 1500 := by
  have h := length_generateButterflyShape 1500 1920 1080
  have ht : totalPoints 1500 = 1501 := by decide
  rw [h, ht]
  exact ⟨rfl, by decide⟩

/-- C1 (amended): for every configured particle count `N`,
`generateButterflyShape` returns between `N` and `N + 2` target points (one
extra for each odd per-side antenna/wing split — exactly `N` only when those
splits are even), `createParticleSystem` creates exactly one `Particle` per
returned point, and every point carries a valid type tag and one of the four
palette color strings. -/
theorem C1_count_and_validity (count : ℕ) (innerWidth innerHeight : ℝ)
    (rnd : ℕ → Draws) :
    count ≤ (generateButterflyShape count innerWidth innerHeight).length ∧
    (generateButterflyShape count innerWidth innerHeight).length ≤ count + 2 ∧
    (createParticleSystem innerWidth innerHeight
        (generateButterflyShape count innerWidth innerHeight) rnd).length =
      (generateButterflyShape count innerWidth innerHeight).length ∧
    (generateButterflyShape count innerWidth innerHeight).Forall validPoint := by
  have h := length_generateButterflyShape count innerWidth innerHeight
  have hb := totalPoints_bounds count
  refine ⟨by omega, by omega, length_createParticleSystem _ _ _ _, ?_⟩
  rw [List.forall_iff_forall_mem]
  exact fun pt hpt => mem_generateButterflyShape hpt

/-- C4 counterexample: the wing share is not within ±1 of its configured 80%
fraction for every `N ≥ 20`: at `N = 59` the generator emits 50 wing points
(30 upper + 20 lower) against a configured `0.8 · 59 = 47.2`, an error of
2.8. -/
theorem C4_counterexample :
    (20 : ℕ) ≤ 59 ∧
    ¬ |((typeCount 59 1920 1080 PType.upperWing +
          typeCount 59 1920 1080 PType.lowerWing : ℕ) : ℚ) - 80 / 100 * 59| ≤ 1 := by
  refine ⟨by omega, ?_⟩
  have hu := typeCount_eq 59 1920 1080 PType.upperWing
  have hl := typeCount_eq 59 1920 1080 PType.lowerWing
  simp only [reduceCtorEq, if_false, if_true, reduceIte] at hu hl
  have h2 : 2 * upperPerSide 59 = 30 := by decide
  have h3 : 2 * lowerPerSide 59 = 20 := by decide
  rw [hu, hl, h2, h3]
  rw [abs_le]
  push_cast
  norm_num

/-- C4 (amended): `generateButterflyShape` partitions the count into
`⌊0.15 N⌋` body points (within 1 of `0.15 N`) and `2⌈⌊0.05 N⌋ / 2⌉` antenna
points (within 1 of `0.05 N`); the emitted wing total `W` only satisfies
`0.8 N − 1 ≤ W < 0.8 N + 4` — the ±1 bound fails for the wings (N = 59 gives
50 against 47.2).  For `N = 1500` the partition is exactly 225 body points,
76 antenna points (one more than the configured 75), and 1200 wing points of
which 720 are `upperWing` and 480 are `lowerWing`. -/
theorem C4_partition (count : ℕ) (innerWidth innerHeight : ℝ) :
    typeCount count innerWidth innerHeight PType.body = bodyParticles count ∧
    typeCount count innerWidth innerHeight PType.antenna = antennaTotal count ∧
    typeCount count innerWidth innerHeight PType.upperWing = 2 * upperPerSide count ∧
    typeCount count innerWidth innerHeight PType.lowerWing = 2 * lowerPerSide count ∧
    |(bodyParticles count : ℚ) - 15 / 100 * count| ≤ 1 ∧
    |(antennaTotal count : ℚ) - 5 / 100 * count| ≤ 1 ∧
    -1 ≤ (wingEmitted count : ℚ) - 80 / 100 * count ∧
    (wingEmitted count : ℚ) - 80 / 100 * count < 4 ∧
    bodyParticles 1500 = 225 ∧ antennaTotal 1500 = 76 ∧
    2 * upperPerSide 1500 = 720 ∧ 2 * lowerPerSide 1500 = 480 := by
  have hbody := typeCount_eq count innerWidth innerHeight PType.body
  have hant := typeCount_eq count innerWidth innerHeight PType.antenna
  have hup := typeCount_eq count innerWidth innerHeight PType.upperWing
  have hlo := typeCount_eq count innerWidth innerHeight PType.lowerWing
  simp only [reduceCtorEq, if_false, if_true, reduceIte, zero_add, add_zero]
    at hbody hant hup hlo
  have hb : 100 * bodyParticles count ≤ 15 * count ∧
      15 * count < 100 * bodyParticles count + 100 := by
    unfold bodyParticles; omega
  have ha : 100 * antennaTotal count ≤ 5 * count + 100 ∧
      5 * count ≤ 100 * antennaTotal count + 100 := by
    unfold antennaTotal antennaPerSide antennaParticles; omega
  have hw : 4 * count ≤ 5 * wingEmitted count + 5 ∧
      5 * wingEmitted count < 4 * count + 20 := by
    unfold wingEmitted upperPerSide lowerPerSide lowerWingParticles upperWingParticles
      wingParticles antennaTotal antennaPerSide antennaParticles bodyParticles
    omega
  have hbq1 : (100 : ℚ) * bodyParticles count ≤ 15 * count := by exact_mod_cast hb.1
  have hbq2 : (15 : ℚ) * count < 100 * bodyParticles count + 100 := by exact_mod_cast hb.2
  have haq1 : (100 : ℚ) * antennaTotal count ≤ 5 * count + 100 := by exact_mod_cast ha.1
  have haq2 : (5 : ℚ) * count ≤ 100 * antennaTotal count + 100 := by exact_mod_cast ha.2
  have hwq1 : (4 : ℚ) * count ≤ 5 * wingEmitted count + 5 := by exact_mod_cast hw.1
  have hwq2 : (5 : ℚ) * wingEmitted count < 4 * count + 20 := by exact_mod_cast hw.2
  refine ⟨hbody, hant, hup, hlo, ?_, ?_, ?_, ?_, by decide, by decide, by decide, by decide⟩
  · rw [abs_le]; constructor <;> linarith
  · rw [abs_le]; constructor <;> linarith
  · linarith
  · linarith

/-- C2: when the scatter timeline of `resetAnimation` completes, a particle's
target is restored to its original shape coordinate, its mouse offsets are
zeroed, `formed` is cleared and `progress` is 0; and because
`easeOutExpo 1 = 1` and the path-curve amplitude `sin(1·π)·20` vanishes,
`updateParticlePosition` at `progress = 1` renders the particle exactly at its
target — so a reset followed by a completed formation run ends with the
particle rendered at its original shape-assigned coordinate. -/
theorem C2_reset_roundtrip (innerWidth innerHeight : ℝ) (d : Draws)
    (particle : Particle) :
    (resetCompleteParticle innerWidth innerHeight d particle).targetX =
      particle.originalTargetX ∧
    (resetCompleteParticle innerWidth innerHeight d particle).targetY =
      particle.originalTargetY ∧
    (resetCompleteParticle innerWidth innerHeight d particle).mouseOffsetX = 0 ∧
    (resetCompleteParticle innerWidth innerHeight d particle).mouseOffsetY = 0 ∧
    (resetCompleteParticle innerWidth innerHeight d particle).formed = false ∧
    (resetCompleteParticle innerWidth innerHeight d particle).progress = 0 ∧
    easeOutExpo 1 = 1 ∧
    Real.sin (1 * Real.pi) * 20 = 0 ∧
    (updateParticlePosition
        { resetCompleteParticle innerWidth innerHeight d particle with progress := 1 }).2.cx =
      particle.originalTargetX ∧
    (updateParticlePosition
        { resetCompleteParticle innerWidth innerHeight d particle with progress := 1 }).2.cy =
      particle.originalTargetY := by
  refine ⟨rfl, rfl, rfl, rfl, rfl, rfl, by simp [easeOutExpo], by simp, ?_, ?_⟩ <;>
  · simp [updateParticlePosition, resetCompleteParticle, easeOutExpo, Real.sin_pi]

/-- C3: `updateParticlePosition` leaves a particle `formed` exactly when it
already was or its progress exceeds 0.95, and no other per-particle operation
of a formation run (`updateFloating`, `handleMouseMove`,
`createRippleEffect`) ever clears the flag; only the reset path clears it. -/
theorem C3_formed_monotonic (particle : Particle)
    (time mouseX mouseY cX cY x y innerWidth innerHeight : ℝ) (d : Draws) :
    ((updateParticlePosition particle).1.formed = true ↔
      (particle.formed = true ∨ particle.progress > 0.95)) ∧
    (updateFloatingParticle time particle).1.formed = particle.formed ∧
    (mouseMoveParticle mouseX mouseY cX cY particle).formed = particle.formed ∧
    (rippleParticle x y particle).formed = particle.formed ∧
    (resetCompleteParticle innerWidth innerHeight d particle).formed = false := by
  refine ⟨?_, ?_, ?_, ?_, rfl⟩
  · unfold updateParticlePosition
    by_cases h1 : particle.progress > 0.95 <;> by_cases h2 : particle.formed <;>
      simp [h1, h2]
  · unfold updateFloatingParticle
    by_cases h2 : particle.formed <;> simp [h2]
  · simp only [mouseMoveParticle]
    split_ifs <;> rfl
  · simp only [rippleParticle]
    split_ifs <;> rfl

/-- Formed particles stay formed along a floating run, and each frame
multiplies both mouse offsets by the decay factor 0.92. -/
theorem floatRun_offsets (times : List ℝ) :
    ∀ particle : Particle, particle.formed = true →
      (floatRun times particle).formed = true ∧
      (floatRun times particle).mouseOffsetX =
        particle.mouseOffsetX * 0.92 ^ times.length ∧
      (floatRun times particle).mouseOffsetY =
        particle.mouseOffsetY * 0.92 ^ times.length := by
  induction times with
  | nil => intro particle hp; simp [floatRun, hp]
  | cons t ts ih =>
    intro particle hp
    have hrun : floatRun (t :: ts) particle =
        floatRun ts (updateFloatingParticle t particle).1 := rfl
    have hstep : (updateFloatingParticle t particle).1.formed = true ∧
        (updateFloatingParticle t particle).1.mouseOffsetX =
          particle.mouseOffsetX * 0.92 ∧
        (updateFloatingParticle t particle).1.mouseOffsetY =
          particle.mouseOffsetY * 0.92 := by
      unfold updateFloatingParticle
      simp [hp]
    obtain ⟨h1, h2, h3⟩ := ih (updateFloatingParticle t particle).1 hstep.1
    refine ⟨by rwa [hrun], ?_, ?_⟩
    · rw [hrun, h2, hstep.2.1, List.length_cons, pow_succ]; ring
    · rw [hrun, h3, hstep.2.2, List.length_cons, pow_succ]; ring

/-- Geometric decay: any nonnegative magnitude drops below any positive
epsilon after finitely many multiplications by 0.92. -/
theorem decay_below (m ε : ℝ) (hm : 0 ≤ m) (hε : 0 < ε) :
    ∃ k : ℕ, m * 0.92 ^ k < ε := by
  obtain ⟨k, hk⟩ := exists_pow_lt_of_lt_one (x := ε / (m + 1)) (y := (0.92 : ℝ))
    (div_pos hε (by linarith)) (by norm_num)
  refine ⟨k, ?_⟩
  have hpow : (0 : ℝ) ≤ 0.92 ^ k := by positivity
  have h1 : m * 0.92 ^ k ≤ (m + 1) * 0.92 ^ k := by nlinarith
  have h2 : (m + 1) * 0.92 ^ k < (m + 1) * (ε / (m + 1)) :=
    mul_lt_mul_of_pos_left hk (by linarith)
  have h3 : (m + 1) * (ε / (m + 1)) = ε := by field_simp
  linarith

/-- C5: each `updateFloating` frame multiplies a formed particle's mouse
offsets by the decay factor 0.92, after `k` unperturbed frames the offsets are
the initial ones times `0.92^k`, and for any positive epsilon some finite
number of frames brings both offset magnitudes below it. -/
theorem C5_offset_decay (time : ℝ) (particle : Particle)
    (hp : particle.formed = true) :
    (updateFloatingParticle time particle).1.mouseOffsetX =
      particle.mouseOffsetX * 0.92 ∧
    (updateFloatingParticle time particle).1.mouseOffsetY =
      particle.mouseOffsetY * 0.92 ∧
    (∀ times : List ℝ,
      (floatRun times particle).mouseOffsetX =
        particle.mouseOffsetX * 0.92 ^ times.length ∧
      (floatRun times particle).mouseOffsetY =
        particle.mouseOffsetY * 0.92 ^ times.length) ∧
    ∀ ε : ℝ, 0 < ε → ∃ k : ℕ,
      |particle.mouseOffsetX| * 0.92 ^ k < ε ∧
      |particle.mouseOffsetY| * 0.92 ^ k < ε := by
  have hstep : (updateFloatingParticle time particle).1.mouseOffsetX =
      particle.mouseOffsetX * 0.92 ∧
      (updateFloatingParticle time particle).1.mouseOffsetY =
        particle.mouseOffsetY * 0.92 := by
    unfold updateFloatingParticle
    simp [hp]
  refine ⟨hstep.1, hstep.2, fun times => ⟨(floatRun_offsets times particle hp).2.1,
    (floatRun_offsets times particle hp).2.2⟩, fun ε hε => ?_⟩
  obtain ⟨k, hk⟩ := decay_below (|particle.mouseOffsetX| + |particle.mouseOffsetY|) ε
    (by positivity) hε
  have hpow : (0 : ℝ) ≤ 0.92 ^ k := by positivity
  have hx : |particle.mouseOffsetX| * 0.92 ^ k ≤
      (|particle.mouseOffsetX| + |particle.mouseOffsetY|) * 0.92 ^ k := by
    have := abs_nonneg particle.mouseOffsetY
    nlinarith
  have hy : |particle.mouseOffsetY| * 0.92 ^ k ≤
      (|particle.mouseOffsetX| + |particle.mouseOffsetY|) * 0.92 ^ k := by
    have := abs_nonneg particle.mouseOffsetX
    nlinarith
  exact ⟨k, by linarith, by linarith⟩

/-- A formed particle with nonzero mouse offsets, used to instantiate C5. -/
noncomputable def probeFormed : Particle :=
  { startX := 0, startY := 0, targetX := 10, targetY := 20, progress := 1, speed := 0.02,
    type := PType.body, formed := true, radius := 2, originalColor := "#8B4513",
    floatPhase := 0, floatSpeed := 1, floatAmplitude := 2,
    mouseOffsetX := 3, mouseOffsetY := 4, originalTargetX := 10, originalTargetY := 20 }

/-- C5 witness: the decay law and the epsilon bound instantiated on a concrete
formed particle. -/
theorem C5_offset_decay_witness :
    (updateFloatingParticle 0 probeFormed).1.mouseOffsetX =
      probeFormed.mouseOffsetX * 0.92 ∧
    (floatRun [0, 1] probeFormed).mouseOffsetX =
      probeFormed.mouseOffsetX * 0.92 ^ 2 ∧
    ∃ k : ℕ, |probeFormed.mouseOffsetX| * 0.92 ^ k < 1 ∧
      |probeFormed.mouseOffsetY| * 0.92 ^ k < 1 :=
  ⟨(C5_offset_decay 0 probeFormed rfl).1,
   ((C5_offset_decay 0 probeFormed rfl).2.2.1 [0, 1]).1,
   (C5_offset_decay 0 probeFormed rfl).2.2.2 1 zero_lt_one⟩

/-- C6: a re-entrant request is silently ignored — `resetAnimation` while
`isResetting` and the host's `handleTransform` while `isAnimating` both
return the state unchanged (no particle or component state is touched, and no
new timeline is created, so the original one completes unaffected). -/
theorem C6_reentrant_noop (s : SystemState) (h : HostState)
    (hs : s.isResetting = true) (hh : h.isAnimating = true) :
    resetAnimation s = s ∧ handleTransform h = h := by
  constructor
  · unfold resetAnimation; rw [if_pos hs]
  · unfold handleTransform; rw [if_pos hh]

/-- A system state with a reset already in flight, used to instantiate C6. -/
noncomputable def busySystem : SystemState :=
  { particles := [], isFormed := false, formationProgress := 0, fps := 60,
    isResetting := true }

/-- A host state with a formation already animating, used to instantiate C6. -/
noncomputable def busyHost : HostState :=
  { isTransformed := false, particleCount := 1500, transformProgress := 0,
    showStats := true, isAnimating := true, fps := 60 }

/-- C6 witness: the two guards on concrete in-flight states. -/
theorem C6_reentrant_noop_witness :
    resetAnimation busySystem = busySystem ∧ handleTransform busyHost = busyHost :=
  C6_reentrant_noop busySystem busyHost rfl rfl

/-- C7: `updateFloating` renders a formed particle at
`target + idleOffset + mouseOffset`, where the idle offset is the particle's
sinusoid of `floatSpeed`, `floatPhase` and `floatAmplitude`, and then decays
the mouse offsets; an unformed particle is left entirely unchanged and is not
rendered. -/
theorem C7_floating_render (time : ℝ) (particle : Particle) :
    (particle.formed = false → updateFloatingParticle time particle = (particle, none)) ∧
    (particle.formed = true →
      (updateFloatingParticle time particle).2 =
        some (particle.targetX +
                Real.sin (time * particle.floatSpeed + particle.floatPhase) *
                  particle.floatAmplitude + particle.mouseOffsetX,
              particle.targetY +
                Real.cos (time * particle.floatSpeed + particle.floatPhase) *
                  particle.floatAmplitude * 0.6 + particle.mouseOffsetY) ∧
      (updateFloatingParticle time particle).1 =
        { particle with
            mouseOffsetX := particle.mouseOffsetX * 0.92
            mouseOffsetY := particle.mouseOffsetY * 0.92 }) := by
  constructor
  · intro hp
    unfold updateFloatingParticle
    rw [if_pos hp]
  · intro hp
    unfold updateFloatingParticle
    simp [hp]

/-- An unformed particle, used to instantiate C7. -/
noncomputable def probeUnformed : Particle :=
  { startX := 100, startY := 100, targetX := 10, targetY := 20, progress := 0.5,
    speed := 0.02, type := PType.antenna, formed := false, radius := 2,
    originalColor := "#1A1A1A", floatPhase := 1, floatSpeed := 1, floatAmplitude := 4,
    mouseOffsetX := 7, mouseOffsetY := 8, originalTargetX := 10, originalTargetY := 20 }

/-- A formed particle, used to instantiate C7. -/
noncomputable def probeFormedSeven : Particle :=
  { startX := 100, startY := 100, targetX := 10, targetY := 20, progress := 1,
    speed := 0.02, type := PType.upperWing, formed := true, radius := 2,
    originalColor := "#FFD700", floatPhase := 1, floatSpeed := 1, floatAmplitude := 4,
    mouseOffsetX := 7, mouseOffsetY := 8, originalTargetX := 10, originalTargetY := 20 }

/-- C7 witness: the unformed particle is untouched and the formed one gets its
offsets decayed. -/
theorem C7_floating_render_witness :
    updateFloatingParticle 0 probeUnformed = (probeUnformed, none) ∧
    (updateFloatingParticle 0 probeFormedSeven).1 =
      { probeFormedSeven with
          mouseOffsetX := probeFormedSeven.mouseOffsetX * 0.92
          mouseOffsetY := probeFormedSeven.mouseOffsetY * 0.92 } :=
  ⟨(C7_floating_render 0 probeUnformed).1 rfl,
   ((C7_floating_render 0 probeFormedSeven).2 rfl).2⟩

/-- C8: for degenerate particle counts (`count ≤ 1`) no executed loop
iteration of the shape generator divides by a zero divisor: the body, antenna
and upper-wing loops run zero iterations, and the lower-wing divisor
`lowerWingParticles / 2` is nonzero on its executed iterations. -/
theorem C8_no_zero_divisor (count : ℕ) (hc : count ≤ 1) :
    (∀ i < bodyParticles count, ((bodyParticles count : ℝ) - 1) ≠ 0) ∧
    (∀ i < antennaPerSide count, ((antennaParticles count : ℝ) / 2 - 1) ≠ 0) ∧
    (∀ i < upperPerSide count, ((upperWingParticles count : ℝ) / 2) ≠ 0) ∧
    (∀ i < lowerPerSide count, ((lowerWingParticles count : ℝ) / 2) ≠ 0) := by
  interval_cases count
  · have h1 : bodyParticles 0 = 0 := by decide
    have h2 : antennaPerSide 0 = 0 := by decide
    have h3 : upperPerSide 0 = 0 := by decide
    have h4 : lowerPerSide 0 = 0 := by decide
    exact ⟨fun i hi => absurd hi (by omega), fun i hi => absurd hi (by omega),
      fun i hi => absurd hi (by omega), fun i hi => absurd hi (by omega)⟩
  · have h1 : bodyParticles 1 = 0 := by decide
    have h2 : antennaPerSide 1 = 0 := by decide
    have h3 : upperPerSide 1 = 0 := by decide
    have h4 : lowerWingParticles 1 = 1 := by decide
    refine ⟨fun i hi => absurd hi (by omega), fun i hi => absurd hi (by omega),
      fun i hi => absurd hi (by omega), fun i hi => ?_⟩
    rw [h4]
    norm_num

/-- C8 witness: the one executed degenerate iteration (`count = 1`, lower-wing
loop, `i = 0`) has the nonzero divisor `1 / 2`. -/
theorem C8_no_zero_divisor_witness : ((lowerWingParticles 1 : ℝ) / 2) ≠ 0 :=
  (C8_no_zero_divisor 1 (by decide)).2.2.2 0 (by decide)

/-- C9: the imperative handle's `transformToButterly` (the spec's
`triggerFormation`) is a pure no-op on every state, while the mount-time
initialization effect creates the particle system and launches the formation
timeline itself. -/
theorem C9_trigger_noop (s : SystemState) (innerWidth innerHeight : ℝ) (count : ℕ)
    (rnd : ℕ → Draws) :
    transformToButterly s = s ∧
    (initEffect true innerWidth innerHeight count rnd s).2 = true ∧
    (initEffect true innerWidth innerHeight count rnd s).1.particles =
      createParticleSystem innerWidth innerHeight
        (generateButterflyShape count innerWidth innerHeight) rnd := by
  refine ⟨rfl, ?_, ?_⟩ <;> simp [initEffect, animateFormationStart]

/-- C10: before formation completes (`isFormed = false`), or when the SVG
surface reference is missing, a click is a complete no-op — no ripple visual
is spawned and no particle state changes. -/
theorem C10_click_guard (svgPresent : Bool) (s : SystemState) (clickX clickY : ℝ)
    (h : svgPresent = false ∨ s.isFormed = false) :
    handleClick svgPresent s clickX clickY = (s, false) := by
  unfold handleClick
  rw [if_pos h]

/-- A system state whose formation has not completed, used to instantiate
C10. -/
noncomputable def unformedSystem : SystemState :=
  { particles := [], isFormed := false, formationProgress := 0, fps := 60,
    isResetting := false }

/-- C10 witness: a click with the SVG present but formation incomplete changes
nothing and spawns no ripple. -/
theorem C10_click_guard_witness :
    handleClick true unformedSystem 5 5 = (unformedSystem, false) :=
  C10_click_guard true unformedSystem 5 5 (Or.inr rfl)

end Monarch
